import Mathlib

/-!
Verification of the sap_mcp core: the CSV formatter (`csv_utils.to_csv`),
the connector row construction (`HanaConnector.execute_query` /
`OdbcConnector.execute_query`), the `test_connection` methods, and the three
tool handlers (`get_tables`, `get_columns`, `run_query`).

Python strings are modelled as Lean `String` (a list of characters); Python
`str.strip` / `str.upper` / `in` / `startswith` are transcribed below for the
ASCII fragment the code manipulates.  A database row (a Python `dict` from
column name to value, values rendered as text for output) is modelled as an
association list with Python-dict insertion semantics.  A connector call that
may raise is modelled as a function into `Except String`, the error carrying
`str(e)`.
-/

/-- Characters removed by Python `str.strip()` (the ASCII whitespace set). -/
def isPySpace (c : Char) : Bool :=
  c == ' ' || c == '\t' || c == '\n' || c == '\r' || c == '\x0b' || c == '\x0c'

/-- Python `str.strip()` on the character list: drop whitespace on both ends. -/
def pyStripList (l : List Char) : List Char :=
  ((l.dropWhile isPySpace).reverse.dropWhile isPySpace).reverse

/-- Python `sql.strip()`. -/
def pyStrip (s : String) : String := ⟨pyStripList s.data⟩

/-- Python `str.upper()` (ASCII case mapping, which is all the code relies on). -/
def pyUpper (s : String) : String := ⟨s.data.map Char.toUpper⟩

/-- Python `s.startswith(pre)`. -/
def pyStartsWith (s pre : String) : Bool := pre.data.isPrefixOf s.data

/-- Substring search on character lists. -/
def hasSubstr (needle : List Char) : List Char → Bool
  | [] => needle.isEmpty
  | c :: t => needle.isPrefixOf (c :: t) || hasSubstr needle t

/-- Python `needle in hay` on strings. -/
def pyIn (needle hay : String) : Bool := hasSubstr needle.data hay.data

/-- A result row: a Python dict from column name to (text-rendered) value. -/
abbrev Row := List (String × String)

/-- Truthiness of `d.get(k)` for string-valued dicts: present and non-empty. -/
def truthy (o : Option String) : Bool :=
  match o with
  | some s => !(s == "")
  | none => false

section CsvUtils

/-- The csv writer escaping with `doublequote=True`: each `"` becomes `""`. -/
def escapeQuotes : List Char → List Char
  | [] => []
  | c :: t => if c = '"' then '"' :: '"' :: escapeQuotes t else c :: escapeQuotes t

/-- One field under `quoting=csv.QUOTE_ALL`: always wrapped in double quotes. -/
def quoteField (s : String) : String := ⟨'"' :: (escapeQuotes s.data ++ ['"'])⟩

/-- One physical CSV line: quoted fields joined by `,` plus the `\r\n`
    terminator the `csv` module emits by default. -/
def csvLine (fields : List String) : String :=
  String.intercalate "," (fields.map quoteField) ++ "\r\n"

/-- The `csv.DictWriter` row projection with `extrasaction="ignore"`: one field per
    requested column, missing keys give the empty field, keys outside the
    column list are dropped. -/
def dictRowFields (cols : List String) (r : Row) : List String :=
  cols.map fun c => (List.lookup c r).getD ""

/-- Transcription of `csv_utils.to_csv(rows, columns=None)`: empty input gives the empty
    string; otherwise columns default to the first row's keys, a header line
    is written first, then one line per row, accumulating into the output
    buffer. -/
def to_csv (rows : List Row) (columns : Option (List String)) : String :=
  match rows with
  | [] => ""
  | r :: _ =>
    let cols := match columns with
      | some cs => cs
      | none => r.map Prod.fst
    rows.foldl (fun acc row => acc ++ csvLine (dictRowFields cols row)) (csvLine cols)

end CsvUtils

section Connectors

/-- Python dict assignment `d[k] = v`: update the value in place when the key
    exists (keeping its original position), otherwise append the new pair. -/
def dictInsert (d : Row) (k : String) (v : String) : Row :=
  if d.any (fun p => p.1 == k) then
    d.map (fun p => if p.1 == k then (k, v) else p)
  else
    d ++ [(k, v)]

/-- Row construction in `HanaConnector.execute_query` /
    `OdbcConnector.execute_query`: `row_dict[column_names[i]] = value` over the
    cursor row, starting from the empty dict. -/
def rowFromCursor (column_names : List String) (values : List String) : Row :=
  (column_names.zip values).foldl (fun d p => dictInsert d p.1 p.2) []

/-- The `execute_query` result shaping: one dict per cursor row, built against the
    column names reported by `cursor.description`. -/
def execute_query_rows (column_names : List String) (raw : List (List String)) :
    List Row :=
  raw.map (rowFromCursor column_names)

/-- Transcription of `HanaConnector.test_connection`: the probe query either succeeds or raises
    `e`; a failure is swallowed, stores `self._last_error = str(e)` and returns
    `False`.  State is the `_last_error` attribute threaded explicitly. -/
def hana_test_connection (last_error : Option String)
    (outcome : Except String Unit) : Bool × Option String :=
  match outcome with
  | .ok _ => (true, last_error)
  | .error e => (false, some e)

/-- Transcription of `HanaConnector.get_last_error`: `getattr(self, '_last_error', 'Unknown error')`. -/
def hana_get_last_error (last_error : Option String) : String :=
  last_error.getD "Unknown error"

/-- Transcription of `OdbcConnector.test_connection`: a failure is swallowed and returns
    `False`; nothing is recorded anywhere (the `except` branch binds no name
    and assigns no attribute). -/
def odbc_test_connection (outcome : Except String Unit) : Bool :=
  match outcome with
  | .ok _ => true
  | .error _ => false

/-- The methods defined by `class OdbcConnector` in `connectors/odbc.py`. -/
def odbc_methods : List String :=
  ["__init__", "connect", "_get_connection", "get_tables", "get_columns",
   "execute_query", "test_connection", "close"]

/-- The methods defined by `class BaseConnector` in `connectors/base.py`
    (inherited by both variants). -/
def base_connector_methods : List String :=
  ["connect", "get_tables", "get_columns", "execute_query", "test_connection",
   "quote_identifier"]

/-- The parameters (besides `self`) of `OdbcConnector.get_tables`. -/
def odbc_get_tables_params : List String := ["catalog", "schema"]

/-- The parameters (besides `self`) of `HanaConnector.get_tables`. -/
def hana_get_tables_params : List String := ["catalog", "schema", "search", "limit"]

/-- The keyword arguments the `get_tables` tool handler passes in
    `connector.get_tables(catalog=..., schema=..., search=..., limit=...)`. -/
def get_tables_tool_kwargs : List String := ["catalog", "schema", "search", "limit"]

/-- Python call semantics: a call raises
    `TypeError: ... got an unexpected keyword argument ...` exactly when some
    keyword argument is not among the callee's parameter names (regardless of
    the value passed, `None` included). -/
def call_raises_type_error (params kwargs : List String) : Bool :=
  kwargs.any (fun k => !(params.contains k))

end Connectors

section ToolHandlers

/-- The column-selection loop of the `get_tables` handler (lines 51-57 of
    `tools/get_tables.py`): start empty, append `Catalog` when any row has a
    truthy `Catalog` value, then `Schema` likewise, then always
    `Table, Description`. -/
def get_tables_columns (tables : List Row) : List String :=
  (if tables.any (fun t => truthy (List.lookup "Catalog" t)) then ["Catalog"] else [])
    ++ ((if tables.any (fun t => truthy (List.lookup "Schema" t)) then ["Schema"] else [])
    ++ ["Table", "Description"])

/-- The `get_tables` tool handler.  The connector is abstracted as a function
    of the four forwarded arguments that either returns the table dicts or
    raises (`Except.error` carries `str(e)`). -/
def get_tables_handler
    (connGetTables : Option String → Option String → Option String → Nat →
      Except String (List Row))
    (catalog schema search : Option String) (limit : Nat) : String :=
  match connGetTables catalog schema search limit with
  | .error e => "ERROR: " ++ e
  | .ok tables =>
    if tables.isEmpty then "No tables found."
    else to_csv tables (some (get_tables_columns tables))

/-- The column-selection loop of the `get_columns` handler (lines 51-56 of
    `tools/get_columns.py`). -/
def get_columns_output_columns (columns : List Row) : List String :=
  (if columns.any (fun c => truthy (List.lookup "Catalog" c)) then ["Catalog"] else [])
    ++ ((if columns.any (fun c => truthy (List.lookup "Schema" c)) then ["Schema"] else [])
    ++ ["Table", "Column", "DataType", "Description"])

/-- The `get_columns` tool handler: required-argument check first, then the
    connector call inside the catch-all boundary. -/
def get_columns_handler
    (connGetColumns : String → Option String → Option String →
      Except String (List Row))
    (table : String) (catalog schema : Option String) : String :=
  if table = "" then "ERROR: table parameter is required"
  else
    match connGetColumns table catalog schema with
    | .error e => "ERROR: " ++ e
    | .ok columns =>
      if columns.isEmpty then "No columns found for table: " ++ table
      else to_csv columns (some (get_columns_output_columns columns))

/-- The seven entries of `dangerous_keywords` in `tools/run_query.py`, in
    their fixed scan order. -/
def dangerous_keywords : List String :=
  ["INSERT", "UPDATE", "DELETE", "DROP", "CREATE", "ALTER", "TRUNCATE"]

/-- The `limit_applied` flag of the `run_query` handler: neither `LIMIT` nor `TOP`
    occurs in `sql.strip().upper()`. -/
def run_query_limit_applied (sql : String) : Bool :=
  !(pyIn "LIMIT" (pyUpper (pyStrip sql))) && !(pyIn "TOP" (pyUpper (pyStrip sql)))

/-- The statement the `run_query` handler dispatches to
    `connector.execute_query`: the original `sql` with `" LIMIT 50"` appended
    when `limit_applied`, the original `sql` otherwise. -/
def run_query_statement (sql : String) : String :=
  if run_query_limit_applied sql then sql ++ " LIMIT 50" else sql

/-- The row-cap notice prefixed to successful capped results. -/
def limit_note : String :=
  "Note: Query result limited to 50 rows for performance. Use explicit LIMIT to change this."

/-- The `run_query` tool handler: empty-argument check, SELECT-prefix check on
    `sql.strip().upper()`, first-match scan of the keyword denylist, then the
    row-cap logic and the connector call inside the catch-all boundary. -/
def run_query_handler (execute : String → Except String (List Row))
    (sql : String) : String :=
  if sql = "" then "ERROR: sql parameter is required"
  else
    let sql_upper := pyUpper (pyStrip sql)
    if !(pyStartsWith sql_upper "SELECT") then
      "ERROR: Only SELECT statements are allowed"
    else
      match dangerous_keywords.find? (fun k => pyIn k sql_upper) with
      | some keyword => "ERROR: " ++ keyword ++ " statements are not allowed"
      | none =>
        match execute (run_query_statement sql) with
        | .error e => "ERROR: " ++ e
        | .ok rows =>
          if rows.isEmpty then "Query returned no results."
          else
            let result_csv := to_csv rows none
            if run_query_limit_applied sql then
              limit_note ++ "\n\n" ++ result_csv
            else result_csv

end ToolHandlers

/-- Concatenation of a list of already-terminated output lines (the contents
    of the `io.StringIO` buffer after the writer has emitted each line). -/
def linesConcat : List String → String
  | [] => ""
  | a :: t => a ++ linesConcat t

example : to_csv [] (some ["a"]) = "" := rfl
example : to_csv [[("b", "2"), ("a", "1"), ("c", "3")]] (some ["a", "b", "c"])
    = "\"a\",\"b\",\"c\"\r\n\"1\",\"2\",\"3\"\r\n" := rfl
example : to_csv [[("name", "Smith, John")]] none
    = "\"name\"\r\n\"Smith, John\"\r\n" := rfl
example : quoteField "Say \"Hello\"" = "\"Say \"\"Hello\"\"\"" := rfl
example : run_query_handler (fun _ => .ok []) "DROP TABLE X"
    = "ERROR: Only SELECT statements are allowed" := rfl
example : run_query_handler (fun _ => .ok []) "SELECT * FROM T; DELETE FROM T"
    = "ERROR: DELETE statements are not allowed" := rfl
example : rowFromCursor ["A", "B"] ["1", "2"] = [("A", "1"), ("B", "2")] := rfl
example : rowFromCursor ["A", "A"] ["1", "2"] = [("A", "2")] := rfl

section HelperLemmas

theorem foldl_append_lines (f : Row → String) (rows : List Row) (init : String) :
    rows.foldl (fun acc row => acc ++ f row) init
      = init ++ linesConcat (rows.map f) := by
  induction rows generalizing init with
  | nil => simp [linesConcat, String.append_empty]
  | cons r rest ih =>
    simp only [List.foldl_cons, List.map_cons, linesConcat, ih,
      String.append_assoc]

theorem pyStrip_eq_empty_of_all_space (sql : String)
    (h : sql.data.all isPySpace = true) : pyStrip sql = "" := by
  apply String.ext
  have h1 : sql.data.dropWhile isPySpace = [] := by
    rw [List.dropWhile_eq_nil_iff]
    exact fun x hx => List.all_eq_true.mp h x hx
  simp [pyStrip, pyStripList, h1]

end HelperLemmas

/-- C9: with an empty `table` the `get_columns` handler, and with an empty
    `sql` the `run_query` handler, return the missing-parameter error
    immediately.  The result is the same for every connector function, so the
    connector is never consulted on this path. -/
theorem required_argument_validation :
    (∀ (connGetColumns : String → Option String → Option String →
        Except String (List Row)) catalog schema,
      get_columns_handler connGetColumns "" catalog schema
        = "ERROR: table parameter is required")
    ∧ (∀ (execute : String → Except String (List Row)),
      run_query_handler execute "" = "ERROR: sql parameter is required") :=
  ⟨fun _ _ _ => rfl, fun _ => rfl⟩

/-- C10: a non-empty, all-whitespace `sql` strips to the empty string, fails
    the SELECT-prefix check and yields the prefix error, not the
    missing-parameter error; the missing-parameter error arises exactly from
    the empty string (the only falsy `str`). -/
theorem run_query_whitespace_boundary :
    (∀ (execute : String → Except String (List Row)) (sql : String),
      sql ≠ "" → sql.data.all isPySpace = true →
      run_query_handler execute sql = "ERROR: Only SELECT statements are allowed")
    ∧ (∀ (execute : String → Except String (List Row)),
      run_query_handler execute "" = "ERROR: sql parameter is required")
    ∧ "ERROR: Only SELECT statements are allowed"
        ≠ "ERROR: sql parameter is required" := by
  refine ⟨?_, fun _ => rfl, by decide⟩
  intro execute sql h hs
  have hstrip : pyStrip sql = "" := pyStrip_eq_empty_of_all_space sql hs
  simp only [run_query_handler, if_neg h, hstrip]
  rfl

/-- Counterexample to C1 as stated: the empty string's trimmed, upper-cased
    form does not begin with SELECT, yet the handler returns the
    missing-parameter error, not the SELECT-prefix error. -/
theorem run_query_guards_counterexample :
    run_query_handler (fun _ => .ok []) "" = "ERROR: sql parameter is required"
    ∧ pyStartsWith (pyUpper (pyStrip "")) "SELECT" = false
    ∧ "ERROR: sql parameter is required" ≠ "ERROR: Only SELECT statements are allowed" :=
  ⟨rfl, rfl, by decide⟩

/-- C1 (amended to non-empty `sql`): a non-empty statement whose trimmed,
    upper-cased form does not begin with SELECT yields exactly the
    SELECT-prefix error for every connector (so the denylist is never
    consulted); a statement whose trimmed, upper-cased form begins with SELECT
    and on which the denylist scan finds a keyword yields the error naming the
    first keyword in the fixed scan order. -/
theorem run_query_guards (execute : String → Except String (List Row))
    (sql : String) :
    (sql ≠ "" → pyStartsWith (pyUpper (pyStrip sql)) "SELECT" = false →
      run_query_handler execute sql = "ERROR: Only SELECT statements are allowed")
    ∧ (∀ keyword,
      pyStartsWith (pyUpper (pyStrip sql)) "SELECT" = true →
      dangerous_keywords.find? (fun k => pyIn k (pyUpper (pyStrip sql))) = some keyword →
      run_query_handler execute sql
        = "ERROR: " ++ keyword ++ " statements are not allowed") := by
  constructor
  · intro hne hpre
    simp only [run_query_handler, if_neg hne, hpre]
    rfl
  · intro keyword hpre hfind
    have hne : sql ≠ "" := by
      intro hempty
      rw [hempty] at hpre
      exact absurd hpre (by decide)
    simp only [run_query_handler, if_neg hne, hpre, hfind]
    rfl

/-- Witness for C1 at the two inputs named by the spec:
    `DROP TABLE X` fails the prefix check (its denylist keyword
    notwithstanding), and `SELECT * FROM T; DELETE FROM T` is rejected for
    DELETE, the first matching keyword in scan order. -/
theorem run_query_guards_witness :
    ("DROP TABLE X" : String) ≠ ""
    ∧ pyStartsWith (pyUpper (pyStrip "DROP TABLE X")) "SELECT" = false
    ∧ run_query_handler (fun _ => .ok []) "DROP TABLE X"
        = "ERROR: Only SELECT statements are allowed"
    ∧ dangerous_keywords.find?
        (fun k => pyIn k (pyUpper (pyStrip "SELECT * FROM T; DELETE FROM T")))
        = some "DELETE"
    ∧ run_query_handler (fun _ => .ok []) "SELECT * FROM T; DELETE FROM T"
        = "ERROR: DELETE statements are not allowed" :=
  ⟨by decide, by decide,
   (run_query_guards (fun _ => .ok []) "DROP TABLE X").1 (by decide) (by decide),
   by decide,
   (run_query_guards (fun _ => .ok []) "SELECT * FROM T; DELETE FROM T").2
     "DELETE" (by decide) (by decide)⟩

/-- Witness for C10 at the one-character whitespace string. -/
theorem run_query_whitespace_boundary_witness :
    (" " : String) ≠ ""
    ∧ (" " : String).data.all isPySpace = true
    ∧ run_query_handler (fun _ => .ok []) " "
        = "ERROR: Only SELECT statements are allowed" :=
  ⟨by decide, by decide,
   run_query_whitespace_boundary.1 (fun _ => .ok []) " " (by decide) (by decide)⟩

/-- C2: when the guards pass and neither LIMIT nor TOP occurs in the trimmed,
    upper-cased statement, the dispatched statement is exactly the original
    `sql` with `" LIMIT 50"` appended and a non-empty result is rendered as the
    row-cap note, a blank line, then the formatted table; when LIMIT or TOP
    does occur, the statement is dispatched unchanged and no note is
    prefixed. -/
theorem run_query_row_cap (execute : String → Except String (List Row))
    (sql : String) (rows : List Row)
    (hpre : pyStartsWith (pyUpper (pyStrip sql)) "SELECT" = true)
    (hkw : dangerous_keywords.find? (fun k => pyIn k (pyUpper (pyStrip sql))) = none) :
    (pyIn "LIMIT" (pyUpper (pyStrip sql)) = false →
      pyIn "TOP" (pyUpper (pyStrip sql)) = false →
      run_query_statement sql = sql ++ " LIMIT 50"
      ∧ (execute (sql ++ " LIMIT 50") = .ok rows → rows ≠ [] →
          run_query_handler execute sql = limit_note ++ "\n\n" ++ to_csv rows none))
    ∧ ((pyIn "LIMIT" (pyUpper (pyStrip sql)) = true
        ∨ pyIn "TOP" (pyUpper (pyStrip sql)) = true) →
      run_query_statement sql = sql
      ∧ (execute sql = .ok rows → rows ≠ [] →
          run_query_handler execute sql = to_csv rows none)) := by
  have hne : sql ≠ "" := by
    intro hempty
    rw [hempty] at hpre
    exact absurd hpre (by decide)
  constructor
  · intro hL hT
    have happ : run_query_limit_applied sql = true := by
      simp [run_query_limit_applied, hL, hT]
    have hstmt : run_query_statement sql = sql ++ " LIMIT 50" := by
      simp [run_query_statement, happ]
    refine ⟨hstmt, fun hexec hrows => ?_⟩
    obtain ⟨r, rs, rfl⟩ := List.exists_cons_of_ne_nil hrows
    simp only [run_query_handler, if_neg hne, hpre, hkw, hstmt, hexec, happ]
    rfl
  · intro hor
    have happ : run_query_limit_applied sql = false := by
      rcases hor with hL | hT
      · simp [run_query_limit_applied, hL]
      · simp [run_query_limit_applied, hT]
    have hstmt : run_query_statement sql = sql := by
      simp [run_query_statement, happ]
    refine ⟨hstmt, fun hexec hrows => ?_⟩
    obtain ⟨r, rs, rfl⟩ := List.exists_cons_of_ne_nil hrows
    simp only [run_query_handler, if_neg hne, hpre, hkw, hstmt, hexec, happ]
    rfl

/-- Witness for C2 at `SELECT * FROM T`: the dispatched statement is
    `SELECT * FROM T LIMIT 50` and the response carries the note, and at
    `SELECT * FROM T LIMIT 1`: dispatched unchanged, no note. -/
theorem run_query_row_cap_witness :
    run_query_statement "SELECT * FROM T" = "SELECT * FROM T LIMIT 50"
    ∧ run_query_handler
        (fun s => if s = "SELECT * FROM T LIMIT 50"
          then .ok [[("A", "1")]] else .error "unexpected statement")
        "SELECT * FROM T"
        = limit_note ++ "\n\n" ++ to_csv [[("A", "1")]] none
    ∧ run_query_statement "SELECT * FROM T LIMIT 1" = "SELECT * FROM T LIMIT 1"
    ∧ run_query_handler
        (fun s => if s = "SELECT * FROM T LIMIT 1"
          then .ok [[("A", "1")]] else .error "unexpected statement")
        "SELECT * FROM T LIMIT 1"
        = to_csv [[("A", "1")]] none := by
  have h1 := (run_query_row_cap
    (fun s => if s = "SELECT * FROM T LIMIT 50"
      then .ok [[("A", "1")]] else .error "unexpected statement")
    "SELECT * FROM T" [[("A", "1")]] (by decide) (by decide)).1
    (by decide) (by decide)
  have h2 := (run_query_row_cap
    (fun s => if s = "SELECT * FROM T LIMIT 1"
      then .ok [[("A", "1")]] else .error "unexpected statement")
    "SELECT * FROM T LIMIT 1" [[("A", "1")]] (by decide) (by decide)).2
    (Or.inl (by decide))
  exact ⟨h1.1, h1.2 rfl (by decide), h2.1, h2.2 rfl (by decide)⟩

/-- C5: each tool handler converts a connector failure `e` into the single
    string `"ERROR: " ++ str(e)`; since the handlers are total functions the
    failure never propagates past the handler boundary. -/
theorem handler_error_boundary :
    (∀ (e : String) catalog schema search limit,
      get_tables_handler (fun _ _ _ _ => .error e) catalog schema search limit
        = "ERROR: " ++ e)
    ∧ (∀ (e : String) table catalog schema, table ≠ "" →
      get_columns_handler (fun _ _ _ => .error e) table catalog schema
        = "ERROR: " ++ e)
    ∧ (∀ (e : String) (sql : String), sql ≠ "" →
      pyStartsWith (pyUpper (pyStrip sql)) "SELECT" = true →
      dangerous_keywords.find? (fun k => pyIn k (pyUpper (pyStrip sql))) = none →
      run_query_handler (fun _ => .error e) sql = "ERROR: " ++ e) := by
  refine ⟨fun e _ _ _ _ => rfl, fun e table _ _ hne => ?_, fun e sql hne hpre hkw => ?_⟩
  · simp only [get_columns_handler, if_neg hne]
  · simp only [run_query_handler, if_neg hne, hpre, hkw]
    rfl

/-- Witness for C5 with the connector raising `boom` under each handler. -/
theorem handler_error_boundary_witness :
    get_tables_handler (fun _ _ _ _ => .error "boom") none none none 50
      = "ERROR: boom"
    ∧ get_columns_handler (fun _ _ _ => .error "boom") "T" none none
      = "ERROR: boom"
    ∧ run_query_handler (fun _ => .error "boom") "SELECT 1" = "ERROR: boom" :=
  ⟨handler_error_boundary.1 "boom" none none none 50,
   handler_error_boundary.2.1 "boom" "T" none none (by decide),
   handler_error_boundary.2.2 "boom" "SELECT 1" (by decide) (by decide) (by decide)⟩

/-- Counterexample to C6 as stated: on the generic ODBC variant a backend
    failure yields `false`, but the class defines no last-error accessor at
    all (neither `OdbcConnector` nor `BaseConnector` has `get_last_error`, so
    calling it would raise `AttributeError`) and the failure text is not
    retained anywhere. -/
theorem test_connection_counterexample :
    odbc_test_connection (.error "connection refused") = false
    ∧ "get_last_error" ∉ odbc_methods
    ∧ "get_last_error" ∉ base_connector_methods := by
  refine ⟨rfl, by decide, by decide⟩

/-- C6 (amended: the last-error accessor exists only on the HANA variant):
    both variants' `test_connection` are total functions of the backend
    outcome (never raise) and return `false` exactly on a backend failure; the
    HANA variant additionally stores `str(e)` and its `get_last_error`
    accessor returns exactly that text (hence non-empty whenever the backend
    message is non-empty), while the generic ODBC variant defines no last-error
    accessor and retains nothing. -/
theorem test_connection_behavior :
    (∀ (st : Option String) (e : String),
      hana_test_connection st (.error e) = (false, some e))
    ∧ (∀ st : Option String, hana_test_connection st (.ok ()) = (true, st))
    ∧ (∀ e : String, hana_get_last_error (some e) = e)
    ∧ (∀ outcome : Except String Unit,
      odbc_test_connection outcome = false ↔ ∃ e, outcome = .error e)
    ∧ "get_last_error" ∉ odbc_methods
    ∧ "get_last_error" ∉ base_connector_methods := by
  refine ⟨fun _ _ => rfl, fun _ => rfl, fun _ => rfl, fun outcome => ?_, by decide, by decide⟩
  cases outcome with
  | ok u => simp [odbc_test_connection]
  | error e => simp [odbc_test_connection]

/-- C4 (code bug): the `get_tables` handler always passes the keyword
    arguments `search` and `limit`, but `OdbcConnector.get_tables` accepts
    only `catalog` and `schema`; by Python call semantics the call raises
    `TypeError` (whatever the argument values, `None` included), the catch-all
    boundary turns it into an `ERROR:` string, and no table set is ever
    returned — the graceful degradation the spec requires never happens.  The
    HANA variant's signature accepts all four keywords. -/
theorem odbc_get_tables_signature_mismatch :
    call_raises_type_error odbc_get_tables_params get_tables_tool_kwargs = true
    ∧ call_raises_type_error hana_get_tables_params get_tables_tool_kwargs = false
    ∧ "search" ∈ get_tables_tool_kwargs
    ∧ "search" ∉ odbc_get_tables_params
    ∧ (∀ (e : String) catalog schema search limit,
      get_tables_handler (fun _ _ _ _ => .error e) catalog schema search limit
        = "ERROR: " ++ e) :=
  ⟨by decide, by decide, by decide, by decide, fun _ _ _ _ _ => rfl⟩

theorem map_fst_zip_sublist (l1 : List String) :
    ∀ l2 : List String, ((l1.zip l2).map Prod.fst).Sublist l1 := by
  induction l1 with
  | nil => intro l2; simp
  | cons a t ih =>
    intro l2
    cases l2 with
    | nil => simp
    | cons b s => simpa using List.Sublist.cons₂ a (ih s)

theorem foldl_dictInsert_fresh :
    ∀ (ps : List (String × String)) (d : Row),
    (∀ p ∈ ps, ∀ q ∈ d, q.1 ≠ p.1) → (ps.map Prod.fst).Nodup →
    ps.foldl (fun acc p => dictInsert acc p.1 p.2) d = d ++ ps := by
  intro ps
  induction ps with
  | nil => intro d _ _; simp
  | cons p rest ih =>
    intro d hdisj hnd
    have hany : d.any (fun q => q.1 == p.1) = false := by
      rw [List.any_eq_false]
      intro q hq
      simp only [beq_iff_eq]
      exact hdisj p (List.mem_cons_self p rest) q hq
    have hins : dictInsert d p.1 p.2 = d ++ [p] := by
      simp only [dictInsert, hany]
      rfl
    rw [List.foldl_cons, hins,
      ih (d ++ [p]) ?_ (List.nodup_cons.mp hnd).2]
    · simp
    · intro p' hp' q hq
      rcases List.mem_append.mp hq with hqd | hqp
      · exact hdisj p' (List.mem_cons_of_mem p hp') q hqd
      · have hq' : q = p := List.mem_singleton.mp hqp
        subst hq'
        intro hEq
        exact (List.nodup_cons.mp hnd).1 (hEq ▸ List.mem_map_of_mem Prod.fst hp')

theorem rowFromCursor_nodup (column_names : List String) (values : List String)
    (h : column_names.Nodup) :
    rowFromCursor column_names values = column_names.zip values := by
  have hnd : ((column_names.zip values).map Prod.fst).Nodup :=
    h.sublist (map_fst_zip_sublist column_names values)
  unfold rowFromCursor
  rw [foldl_dictInsert_fresh _ [] (by simp) hnd]
  simp

/-- Counterexample to C3 as stated: with the backend reporting the duplicated
    column list `A, A` and one row of values `1, 2`, the Python dict keyed by
    column name collapses the duplicates — the built row has a single entry
    (holding the second value) instead of one entry per reported column. -/
theorem execute_query_duplicate_columns_counterexample :
    rowFromCursor ["A", "A"] ["1", "2"] = [("A", "2")]
    ∧ (rowFromCursor ["A", "A"] ["1", "2"]).length
        ≠ (["A", "A"] : List String).length :=
  ⟨rfl, by decide⟩

/-- C3 (amended): when the reported column names are pairwise distinct, every
    connector variant's `execute_query` preserves every reported column in
    order with its value passed through unchanged (each row is the zip of the
    reported names with the row's values); when a name repeats, the row dict
    keeps one entry per distinct name holding the value of the name's last
    occurrence, overwriting earlier ones. -/
theorem execute_query_column_preservation (column_names : List String)
    (raw : List (List String)) (h : column_names.Nodup) :
    execute_query_rows column_names raw
      = raw.map (fun values => column_names.zip values)
    ∧ execute_query_rows ["A", "A"] [["1", "2"]] = [[("A", "2")]] := by
  refine ⟨?_, rfl⟩
  unfold execute_query_rows
  exact List.map_congr_left (fun values _ => rowFromCursor_nodup _ _ h)

/-- Witness for C3 at distinct column names `A, B`. -/
theorem execute_query_column_preservation_witness :
    (["A", "B"] : List String).Nodup
    ∧ execute_query_rows ["A", "B"] [["1", "2"]] = [[("A", "1"), ("B", "2")]] :=
  ⟨by decide,
   ((execute_query_column_preservation ["A", "B"] [["1", "2"]] (by decide)).1).trans rfl⟩

theorem mem_optional_columns (bC bS : Bool) (tail : List String)
    (hC : "Catalog" ∉ tail) (hS : "Schema" ∉ tail) :
    (("Catalog" ∈ (if bC then ["Catalog"] else [])
        ++ ((if bS then ["Schema"] else []) ++ tail)) ↔ bC = true)
    ∧ (("Schema" ∈ (if bC then ["Catalog"] else [])
        ++ ((if bS then ["Schema"] else []) ++ tail)) ↔ bS = true)
    ∧ ∃ pre, (∀ c ∈ pre, c = "Catalog" ∨ c = "Schema")
        ∧ (if bC then ["Catalog"] else [])
            ++ ((if bS then ["Schema"] else []) ++ tail) = pre ++ tail := by
  cases bC <;> cases bS
  · exact ⟨by simp [hC], by simp [hS], [], by decide, by simp⟩
  · exact ⟨by simp [hC], by simp, ["Schema"], by decide, by simp⟩
  · exact ⟨by simp, by simp [hS], ["Catalog"], by decide, by simp⟩
  · exact ⟨by simp, by simp, ["Catalog", "Schema"], by decide, by simp⟩

/-- C7: for every non-empty metadata batch, the handlers render the batch with
    dynamically chosen columns: Catalog is included iff some record has a
    truthy (present, non-empty) Catalog value, Schema likewise, and the fixed
    trailing columns (`Table, Description` for list-tables;
    `Table, Column, DataType, Description` for list-columns) always follow any
    Catalog/Schema columns. -/
theorem metadata_column_selection :
    (∀ (connGetTables : Option String → Option String → Option String → Nat →
        Except String (List Row)) catalog schema search limit (tables : List Row),
      connGetTables catalog schema search limit = .ok tables → tables ≠ [] →
      get_tables_handler connGetTables catalog schema search limit
          = to_csv tables (some (get_tables_columns tables))
        ∧ (("Catalog" ∈ get_tables_columns tables)
            ↔ ∃ t ∈ tables, truthy (List.lookup "Catalog" t) = true)
        ∧ (("Schema" ∈ get_tables_columns tables)
            ↔ ∃ t ∈ tables, truthy (List.lookup "Schema" t) = true)
        ∧ ∃ pre, (∀ c ∈ pre, c = "Catalog" ∨ c = "Schema")
            ∧ get_tables_columns tables = pre ++ ["Table", "Description"])
    ∧ (∀ (connGetColumns : String → Option String → Option String →
        Except String (List Row)) table catalog schema (columns : List Row),
      table ≠ "" → connGetColumns table catalog schema = .ok columns →
      columns ≠ [] →
      get_columns_handler connGetColumns table catalog schema
          = to_csv columns (some (get_columns_output_columns columns))
        ∧ (("Catalog" ∈ get_columns_output_columns columns)
            ↔ ∃ c ∈ columns, truthy (List.lookup "Catalog" c) = true)
        ∧ (("Schema" ∈ get_columns_output_columns columns)
            ↔ ∃ c ∈ columns, truthy (List.lookup "Schema" c) = true)
        ∧ ∃ pre, (∀ c ∈ pre, c = "Catalog" ∨ c = "Schema")
            ∧ get_columns_output_columns columns
                = pre ++ ["Table", "Column", "DataType", "Description"]) := by
  constructor
  · intro conn catalog schema search limit tables hok hne
    have h := mem_optional_columns
      (tables.any fun t => truthy (List.lookup "Catalog" t))
      (tables.any fun t => truthy (List.lookup "Schema" t))
      ["Table", "Description"] (by decide) (by decide)
    refine ⟨?_, h.1.trans List.any_eq_true, h.2.1.trans List.any_eq_true, h.2.2⟩
    obtain ⟨t, ts, rfl⟩ := List.exists_cons_of_ne_nil hne
    simp only [get_tables_handler, hok, List.isEmpty_cons]
    simp
  · intro conn table catalog schema columns htab hok hne
    have h := mem_optional_columns
      (columns.any fun c => truthy (List.lookup "Catalog" c))
      (columns.any fun c => truthy (List.lookup "Schema" c))
      ["Table", "Column", "DataType", "Description"] (by decide) (by decide)
    refine ⟨?_, h.1.trans List.any_eq_true, h.2.1.trans List.any_eq_true, h.2.2⟩
    obtain ⟨c, cs, rfl⟩ := List.exists_cons_of_ne_nil hne
    simp only [get_columns_handler, if_neg htab, hok, List.isEmpty_cons]
    simp

/-- Witness for C7: a list-tables batch with an empty Catalog everywhere but a
    non-empty Schema somewhere renders with the Schema column and without the
    Catalog column; likewise for a list-columns batch with neither. -/
theorem metadata_column_selection_witness :
    get_tables_handler
      (fun _ _ _ _ => .ok [[("Catalog", ""), ("Schema", "S1"),
        ("Table", "T1"), ("Description", "")]]) none none none 50
      = to_csv [[("Catalog", ""), ("Schema", "S1"),
          ("Table", "T1"), ("Description", "")]]
          (some ["Schema", "Table", "Description"])
    ∧ get_columns_handler
        (fun _ _ _ => .ok [[("Table", "T1"), ("Column", "C1"),
          ("DataType", "NVARCHAR"), ("Description", "")]]) "T1" none none
      = to_csv [[("Table", "T1"), ("Column", "C1"),
          ("DataType", "NVARCHAR"), ("Description", "")]]
          (some ["Table", "Column", "DataType", "Description"]) :=
  ⟨(metadata_column_selection.1 _ none none none 50
      [[("Catalog", ""), ("Schema", "S1"), ("Table", "T1"), ("Description", "")]]
      rfl (by decide)).1,
   (metadata_column_selection.2 _ "T1" none none
      [[("Table", "T1"), ("Column", "C1"), ("DataType", "NVARCHAR"),
        ("Description", "")]]
      (by decide) rfl (by decide)).1⟩

/-- C8: the formatter returns the empty string (no header) on the empty row
    collection; on a non-empty collection it emits the header line first (the
    requested columns, each always-quoted, comma-separated, in order) and then
    exactly one line per input row in input order, where each row line takes
    the row's value for each requested column in order (the empty field when
    the column is absent, keys outside the column list dropped); when the
    column list is omitted it is the first row's keys in that row's order; and
    an embedded double quote is escaped by doubling. -/
theorem to_csv_format_spec :
    (∀ columns, to_csv [] columns = "")
    ∧ (∀ (rows : List Row) (cols : List String), rows ≠ [] →
        to_csv rows (some cols)
          = csvLine cols
            ++ linesConcat (rows.map (fun row => csvLine (dictRowFields cols row))))
    ∧ (∀ (r : Row) (rs : List Row),
        to_csv (r :: rs) none = to_csv (r :: rs) (some (r.map Prod.fst)))
    ∧ (∀ fields, csvLine fields
        = String.intercalate "," (fields.map quoteField) ++ "\r\n")
    ∧ (∀ cols r, dictRowFields cols r
        = cols.map (fun c => (List.lookup c r).getD ""))
    ∧ (∀ l1 l2, escapeQuotes (l1 ++ '"' :: l2)
        = escapeQuotes l1 ++ '"' :: '"' :: escapeQuotes l2) := by
  refine ⟨fun _ => rfl, ?_, fun r rs => rfl, fun _ => rfl, fun _ _ => rfl, ?_⟩
  · intro rows cols hne
    obtain ⟨r, rs, rfl⟩ := List.exists_cons_of_ne_nil hne
    show (r :: rs).foldl (fun acc row => acc ++ csvLine (dictRowFields cols row))
        (csvLine cols) = _
    rw [foldl_append_lines]
  · intro l1 l2
    induction l1 with
    | nil => simp [escapeQuotes]
    | cons c t ih =>
      by_cases hc : c = '"' <;> simp [escapeQuotes, hc, ih]

/-- Witness for C8: a two-row collection exercising quoting of a comma, quote
    doubling, a missing column (empty field) and an extra key (dropped). -/
theorem to_csv_format_spec_witness :
    ([[("name", "Smith, John"), ("x", "dropped")],
      [("name", "Say \"Hi\"")]] : List Row) ≠ []
    ∧ to_csv [[("name", "Smith, John"), ("x", "dropped")],
        [("name", "Say \"Hi\"")]] (some ["name", "q"])
      = "\"name\",\"q\"\r\n\"Smith, John\",\"\"\r\n\"Say \"\"Hi\"\"\",\"\"\r\n" := by
  refine ⟨by decide, ?_⟩
  have h := to_csv_format_spec.2.1
    [[("name", "Smith, John"), ("x", "dropped")], [("name", "Say \"Hi\"")]]
    ["name", "q"] (by decide)
  exact h.trans rfl
